import Mathlib

/-!
Shallow embedding of the request-routing / query-dispatch layer of
`langchain-agent/main.py` (an OpenAI-compatible chat endpoint over a
rule-based Oracle query dispatcher), together with proofs about it.

The external collaborators (the relational database behind
`pandas.read_sql`, the Ollama language model) are modelled as explicit
function parameters: the database as a function from a connection string
and a SQL statement to either a rendered result string (standing for
`DataFrame.to_string()`) or an error message (standing for a raised
exception), and the language model as an optional function from a prompt
to either a reply or an error.  The process environment (`os.getenv`) is
a function from variable names to `Option String`.
-/

namespace LocalLLM

/-- The Python substring test `needle in hay` on strings. -/
def containsSub (hay needle : String) : Bool :=
  hay.toList.tails.any (fun t => needle.toList.isPrefixOf t)

/-- The Python `str.lower()` (ASCII case mapping, which covers every string
occurring in the source). -/
def lowerStr (s : String) : String := String.mk (s.toList.map Char.toLower)

/-- The Python `str.strip()` with no argument: drop whitespace from both
ends. -/
def pyStrip (s : String) : String :=
  String.mk (((s.toList.dropWhile Char.isWhitespace).reverse.dropWhile Char.isWhitespace).reverse)

/-- Worker for the Python `str.split(sep)` with a non-empty separator: scan
left to right, emitting the piece read so far at each non-overlapping
occurrence of `sep`.  The fuel argument (instantiated with the length of
the scanned list, which every step shortens) keeps the recursion
structural. -/
def pySplitSepAux (sep : List Char) : Nat → List Char → List Char → List (List Char)
  | _, [], acc => [acc.reverse]
  | 0, l, acc => [acc.reverse ++ l]
  | fuel+1, c :: cs, acc =>
    if sep.isPrefixOf (c :: cs) then
      acc.reverse :: pySplitSepAux sep fuel (cs.drop (sep.length - 1)) []
    else pySplitSepAux sep fuel cs (c :: acc)

/-- The Python `str.split(sep)` with a non-empty separator. -/
def pySplitSep (s sep : String) : List String :=
  (pySplitSepAux sep.toList s.toList.length s.toList []).map String.mk

/-- The Python `str.split()` with no argument: split on runs of whitespace,
dropping empty pieces.  Auxiliary worker over the character list; `acc`
holds the current word reversed. -/
def pySplitAux : List Char → List Char → List (List Char)
  | [], acc => if acc.isEmpty then [] else [acc.reverse]
  | c :: cs, acc =>
    if c.isWhitespace then
      if acc.isEmpty then pySplitAux cs [] else acc.reverse :: pySplitAux cs []
    else pySplitAux cs (c :: acc)

/-- The Python `str.split()` with no argument. -/
def pySplit (s : String) : List String :=
  (pySplitAux s.toList []).map (fun l => String.mk l)

/-- The process environment, `os.getenv`. -/
def Env : Type := String → Option String

/-- `os.getenv(name, default)`. -/
def getenv (env : Env) (name default : String) : String :=
  (env name).getD default

/-- The external database behind `create_engine`/`pd.read_sql`, keyed by the
connection string `execute_query` builds: given a connection string and a SQL
statement it returns the rendered rows (`DataFrame.to_string()`) or a raised
error rendered by `str(e)`. -/
def DB : Type := String → String → Except String String

/-- The optional Ollama chat model: `None` when `ChatOllama(...)` failed at
start-up, otherwise `llm.invoke`, which returns a reply or raises. -/
def LLM : Type := Option (String → Except String String)

/-- One entry of `OracleConnectionManager.table_credentials`. -/
structure Creds where
  username : String
  password : String
deriving DecidableEq, Repr

/-- `OracleConnectionManager.table_credentials`: the static per-table
credential map built in `__init__`. -/
def table_credentials (env : Env) : List (String × Creds) :=
  [ ("users", ⟨"users_reader", getenv env "ORACLE_TABLE_USERS_PASSWORD" "UsersTable123"⟩),
    ("orders", ⟨"orders_reader", getenv env "ORACLE_TABLE_ORDERS_PASSWORD" "OrdersTable123"⟩),
    ("products", ⟨"products_reader", getenv env "ORACLE_TABLE_PRODUCTS_PASSWORD" "ProductsTable123"⟩),
    ("analytics", ⟨"analytics_reader", getenv env "ORACLE_TABLE_ANALYTICS_PASSWORD" "AnalyticsTable123"⟩) ]

/-- The credential lookup inside `get_connection_string`:
`self.table_credentials.get(table_context, default)` where `default` is the
analytics entry of the map.
The fallback of the outer `getD` is unreachable because the key
`"analytics"` is present in the map. -/
def getCreds (env : Env) (table_context : String) : Creds :=
  match (table_credentials env).lookup table_context with
  | some c => c
  | none => ((table_credentials env).lookup "analytics").getD ⟨"", ""⟩

/-- `OracleConnectionManager.get_connection_string`. -/
def get_connection_string (env : Env) (table_context : String) : String :=
  let creds := getCreds env table_context
  let demo_mode := lowerStr (getenv env "DEMO_MODE" "true") == "true"
  let host := getenv env "ORACLE_HOST" "oracle-demo"
  let port := getenv env "ORACLE_PORT" "1521"
  let service := getenv env "ORACLE_SERVICE" "XEPDB1"
  if demo_mode then
    "oracle+oracledb://" ++ creds.username ++ ":" ++ creds.password ++ "@" ++
      host ++ ":" ++ port ++ "/?service_name=" ++ service
  else
    let wallet_path := getenv env "ORACLE_WALLET_PATH" "/app/oracle-wallets/production"
    "oracle+oracledb://" ++ creds.username ++ ":" ++ creds.password ++ "@" ++
      host ++ ":" ++ port ++ "/?service_name=" ++ service ++
      "&wallet_location=" ++ wallet_path

/-- `OracleConnectionManager.execute_query`: builds the connection string for
the table context and runs the statement against the database.  The
`try/except` re-raises the caught exception unchanged (`raise e` after
logging), so the result is exactly the verdict of the database.  Note there is no
inspection of `sql` of any kind before it is run. -/
def execute_query (env : Env) (db : DB) (sql : String) (table_context : String) :
    Except String String :=
  db (get_connection_string env table_context) sql

/-- Canned SQL of the active-users branch of `query_users_table`. -/
def usersActiveSql : String :=
  "SELECT COUNT(*) as active_count FROM users WHERE status = \x27ACTIVE\x27"

/-- Canned SQL of the count branch of `query_users_table`. -/
def usersCountSql : String :=
  "SELECT COUNT(*) as total_users FROM users"

/-- Canned SQL of the recent-users branch of `query_users_table`. -/
def usersRecentSql : String :=
  "SELECT username, email, created_date FROM users WHERE created_date >= SYSDATE - 30 ORDER BY created_date DESC"

/-- Canned SQL of the default branch of `query_users_table`. -/
def usersAllSql : String :=
  "SELECT user_id, username, email, first_name, last_name, status FROM users"

/-- Canned SQL of the recent-orders branch of `query_orders_table`. -/
def ordersRecentSql : String :=
  "SELECT order_id, user_id, total_amount, order_date, status FROM orders WHERE order_date >= SYSDATE - 7 ORDER BY order_date DESC"

/-- Canned SQL of the revenue branch of `query_orders_table`. -/
def ordersRevenueSql : String :=
  "SELECT SUM(total_amount) as total_revenue, COUNT(*) as order_count FROM orders WHERE status = \x27COMPLETED\x27"

/-- Canned SQL of the pending-orders branch of `query_orders_table`. -/
def ordersPendingSql : String :=
  "SELECT order_id, user_id, total_amount, order_date FROM orders WHERE status = \x27PENDING\x27"

/-- Canned SQL of the default branch of `query_orders_table`. -/
def ordersAllSql : String :=
  "SELECT order_id, user_id, product_id, quantity, total_amount, status FROM orders"

/-- Canned SQL of the low-stock branch of `query_products_table`. -/
def productsLowStockSql : String :=
  "SELECT product_name, stock_quantity, price FROM products WHERE stock_quantity < 20"

/-- Canned SQL of the expensive / highest-price branch of
`query_products_table`. -/
def productsExpensiveSql : String :=
  "SELECT product_name, price, category FROM products ORDER BY price DESC"

/-- Canned SQL of the category branch of `query_products_table`. -/
def productsCategorySql : String :=
  "SELECT category, COUNT(*) as product_count FROM products GROUP BY category"

/-- Canned SQL of the default branch of `query_products_table`. -/
def productsAllSql : String :=
  "SELECT product_id, product_name, category, price, stock_quantity FROM products"

/-- Canned SQL of the revenue branch of `query_analytics_dashboard`. -/
def analyticsDailyRevenueSql : String :=
  "SELECT metric_name, metric_value, metric_date FROM sales_analytics WHERE metric_name = \x27Daily Revenue\x27"

/-- Canned SQL of the conversion branch of `query_analytics_dashboard`. -/
def analyticsConversionSql : String :=
  "SELECT metric_name, metric_value, metric_date FROM sales_analytics WHERE metric_name = \x27Conversion Rate\x27"

/-- Canned SQL of the user-stats branch of `query_analytics_dashboard`. -/
def analyticsUserStatsSql : String :=
  "SELECT metric_name, metric_value FROM sales_analytics WHERE category = \x27USERS\x27"

/-- Canned SQL of the default branch of `query_analytics_dashboard`. -/
def analyticsAllSql : String :=
  "SELECT metric_name, metric_value, metric_date, category FROM sales_analytics"

/-- `query_users_table`: maps the description to one of four canned SQL
statements, runs it on the `users` context, renders or reports the error. -/
def query_users_table (env : Env) (db : DB) (query_description : String) : String :=
  let d := lowerStr query_description
  let sql :=
    if containsSub d "active users" then
      usersActiveSql
    else if containsSub d "total users" || containsSub d "count" then
      usersCountSql
    else if containsSub d "recent users" then
      usersRecentSql
    else
      usersAllSql
  match execute_query env db sql "users" with
  | .ok r => "Users Query Result:\n" ++ r
  | .error e => "Error querying users table: " ++ e

/-- `query_orders_table`. -/
def query_orders_table (env : Env) (db : DB) (query_description : String) : String :=
  let d := lowerStr query_description
  let sql :=
    if containsSub d "recent orders" then
      ordersRecentSql
    else if containsSub d "total sales" || containsSub d "revenue" then
      ordersRevenueSql
    else if containsSub d "pending orders" then
      ordersPendingSql
    else
      ordersAllSql
  match execute_query env db sql "orders" with
  | .ok r => "Orders Query Result:\n" ++ r
  | .error e => "Error querying orders table: " ++ e

/-- `query_products_table`. -/
def query_products_table (env : Env) (db : DB) (query_description : String) : String :=
  let d := lowerStr query_description
  let sql :=
    if containsSub d "low stock" then
      productsLowStockSql
    else if containsSub d "expensive" || containsSub d "highest price" then
      productsExpensiveSql
    else if containsSub d "category" then
      productsCategorySql
    else
      productsAllSql
  match execute_query env db sql "products" with
  | .ok r => "Products Query Result:\n" ++ r
  | .error e => "Error querying products table: " ++ e

/-- The multi-table SQL of the comprehensive branch of `query_analytics_dashboard`
(a Python triple-quoted string, transcribed with its original indentation). -/
def comprehensiveSql : String :=
  "\n            SELECT \n                \x27Total Users\x27 as metric, COUNT(u.user_id) as value FROM users u\n            UNION ALL\n            SELECT \n                \x27Active Users\x27 as metric, COUNT(u.user_id) as value FROM users u WHERE u.status = \x27ACTIVE\x27\n            UNION ALL\n            SELECT \n                \x27Total Orders\x27 as metric, COUNT(o.order_id) as value FROM orders o\n            UNION ALL\n            SELECT \n                \x27Total Revenue\x27 as metric, SUM(o.total_amount) as value FROM orders o WHERE o.status = \x27COMPLETED\x27\n            "

/-- `query_analytics_dashboard`. -/
def query_analytics_dashboard (env : Env) (db : DB) (query_description : String) : String :=
  let d := lowerStr query_description
  let sql :=
    if containsSub d "revenue" then
      analyticsDailyRevenueSql
    else if containsSub d "conversion" then
      analyticsConversionSql
    else if containsSub d "user stats" then
      analyticsUserStatsSql
    else if containsSub d "comprehensive" || containsSub d "full report" then
      comprehensiveSql
    else
      analyticsAllSql
  match execute_query env db sql "analytics" with
  | .ok r => "Analytics Query Result:\n" ++ r
  | .error e => "Error querying analytics: " ++ e

/-- `get_weather`: a pure stub, returns a fixed templated sentence. -/
def get_weather (location : String) : String :=
  "It\x27s always sunny in " ++ location ++ "."

/-- The Products trigger keywords of `simple_query_handler`. -/
def products_keywords : List String :=
  ["product", "inventory", "catalog", "sell", "stock", "item"]

/-- The Orders trigger keywords of `simple_query_handler`. -/
def orders_keywords : List String :=
  ["order", "sales", "revenue", "completed", "money", "total"]

/-- The Users trigger keywords of `simple_query_handler`. -/
def users_keywords : List String :=
  ["user", "customer", "account", "client"]

/-- The Analytics trigger keywords of `simple_query_handler`. -/
def analytics_keywords : List String :=
  ["analytics", "metrics", "report", "dashboard", "business", "kpi"]

/-- `any(word in prompt_lower for word in kws)`. -/
def anyKw (kws : List String) (prompt_lower : String) : Bool :=
  kws.any (fun w => containsSub prompt_lower w)

/-- The closed intent set of spec sections 3 and 4.3, naming the ordered branches
of `simple_query_handler`. -/
inductive Intent where
  | Products
  | Orders
  | Users
  | Analytics
  | Weather
  | Conversational
deriving DecidableEq, Repr

/-- The intent classification performed by the ordered branch conditions of
`simple_query_handler` (lines 220, 230, 242, 254, 262 of `main.py`): the first
keyword set with a member occurring in the lowered prompt wins. -/
def classify (user_prompt : String) : Intent :=
  let prompt_lower := lowerStr user_prompt
  if anyKw products_keywords prompt_lower then .Products
  else if anyKw orders_keywords prompt_lower then .Orders
  else if anyKw users_keywords prompt_lower then .Users
  else if anyKw analytics_keywords prompt_lower then .Analytics
  else if containsSub prompt_lower "weather" then .Weather
  else .Conversational

/-- The default help text returned by `simple_query_handler` when no keyword
set matches (the `else` branch, a Python triple-quoted f-string with no
placeholders). -/
def helpText : String :=
  "I can help you with business data queries! Try asking:\n\n📦 **Products**: \"What products do we sell?\", \"Show me low stock items\", \"List products by category\"\n💰 **Sales**: \"What\x27s our total revenue?\", \"Show pending orders\", \"Recent sales\"\n👥 **Users**: \"How many customers do we have?\", \"Show active users\", \"Recent user registrations\"\n📊 **Analytics**: \"Give me a business report\", \"Show key metrics\", \"Comprehensive analytics\"\n🌤️ **Weather**: \"What\x27s the weather in Tokyo?\" (demo feature)\n\nYour Oracle database is connected and ready with real data!"

/-- `simple_query_handler`: the rule-based dispatcher over the four table
tools plus the weather stub.  The surrounding `try/except` can only catch
exceptions escaping the tools, and the tools catch their own exceptions and
return error strings, so the handler is total. -/
def simple_query_handler (env : Env) (db : DB) (user_prompt : String) : String :=
  let prompt_lower := lowerStr user_prompt
  if anyKw products_keywords prompt_lower then
    let result :=
      if containsSub prompt_lower "low stock" then
        query_products_table env db "low stock products"
      else if containsSub prompt_lower "category" || containsSub prompt_lower "categories" then
        query_products_table env db "products by category"
      else
        query_products_table env db "show all products"
    "Here are our products:\n\n" ++ result
  else if anyKw orders_keywords prompt_lower then
    let result :=
      if containsSub prompt_lower "revenue" || containsSub prompt_lower "total" ||
          containsSub prompt_lower "money" then
        query_orders_table env db "total revenue from completed orders"
      else if containsSub prompt_lower "pending" then
        query_orders_table env db "pending orders"
      else if containsSub prompt_lower "recent" then
        query_orders_table env db "recent orders"
      else
        query_orders_table env db "show all orders"
    "Here are our orders:\n\n" ++ result
  else if anyKw users_keywords prompt_lower then
    let result :=
      if containsSub prompt_lower "active" then
        query_users_table env db "active users"
      else if containsSub prompt_lower "count" || containsSub prompt_lower "how many" then
        query_users_table env db "total users"
      else if containsSub prompt_lower "recent" then
        query_users_table env db "recent users"
      else
        query_users_table env db "show all users"
    "Here are our users:\n\n" ++ result
  else if anyKw analytics_keywords prompt_lower then
    let result :=
      if containsSub prompt_lower "comprehensive" || containsSub prompt_lower "full" then
        query_analytics_dashboard env db "comprehensive business report"
      else
        query_analytics_dashboard env db "key metrics"
    "Here\x27s your business analytics:\n\n" ++ result
  else if containsSub prompt_lower "weather" then
    let location :=
      if containsSub prompt_lower "in" then
        let parts := pySplitSep prompt_lower "in"
        if parts.length > 1 then pyStrip (parts.getLastD "") else "your location"
      else "your location"
    get_weather location
  else
    helpText

/-- The coarse data-query gate of `run_agent`:
the ten-element list `data_keywords` hardcoded in `run_agent`. -/
def data_keywords : List String :=
  ["product", "order", "user", "customer", "revenue", "sales",
   "analytics", "report", "inventory", "stock"]

/-- `run_agent`: delegates to `simple_query_handler` when the gate matches,
otherwise asks the language model when one is configured, falling back to
`simple_query_handler` when the call raises or no model is available. -/
def run_agent (env : Env) (db : DB) (llm : LLM) (user_prompt : String) : String :=
  let prompt_lower := lowerStr user_prompt
  if anyKw data_keywords prompt_lower then
    simple_query_handler env db user_prompt
  else
    match llm with
    | some f =>
      match f user_prompt with
      | .ok response => response
      | .error _ => simple_query_handler env db user_prompt
    | none => simple_query_handler env db user_prompt

/-- `OLLAMA_MODEL`. -/
def OLLAMA_MODEL : String := "mistral"

/-- One `{role, content}` message of the request body. -/
structure Msg where
  role : String
  content : String
deriving DecidableEq, Repr

/-- The `message` object of a buffered chat completion choice. -/
structure ChatMessage where
  role : String
  content : String
deriving DecidableEq, Repr

/-- One element of `choices` in a buffered response. -/
structure Choice where
  index : Nat
  message : ChatMessage
  finish_reason : Option String
deriving DecidableEq, Repr

/-- The buffered chat completion body built by `wrap_openai` (usage counters
kept as the three zero fields). -/
structure ChatResponse where
  id : String
  object : String
  model : String
  choices : List Choice
  prompt_tokens : Nat
  completion_tokens : Nat
  total_tokens : Nat
deriving DecidableEq, Repr

/-- `wrap_openai`: the generated `chatcmpl-{uuid}` identifier is abstracted
as the `id` parameter. -/
def wrap_openai (id : String) (answer : String) : ChatResponse :=
  { id := id
    object := "chat.completion"
    model := OLLAMA_MODEL
    choices := [{ index := 0
                  message := { role := "assistant", content := answer }
                  finish_reason := some "stop" }]
    prompt_tokens := 0
    completion_tokens := 0
    total_tokens := 0 }

/-- The `delta` object of a stream chunk: `{"content": w + " "}` for word
chunks, `{}` (no content field) for the terminal chunk. -/
structure Delta where
  content : Option String
deriving DecidableEq, Repr

/-- One element of `choices` in a stream chunk. -/
structure ChunkChoice where
  index : Nat
  delta : Delta
  finish_reason : Option String
deriving DecidableEq, Repr

/-- One JSON chunk of the SSE stream (the `id` field is the literal `null`
in the source and is omitted here). -/
structure Chunk where
  object : String
  model : String
  choices : List ChunkChoice
deriving DecidableEq, Repr

/-- One word chunk of `event_stream`: `delta = {"content": word + " "}`,
finish reason null. -/
def word_chunk (word : String) : Chunk :=
  { object := "chat.completion.chunk"
    model := OLLAMA_MODEL
    choices := [{ index := 0
                  delta := { content := some (word ++ " ") }
                  finish_reason := none }] }

/-- The terminal chunk of `event_stream`: empty delta, finish reason
`"stop"`. -/
def stop_chunk : Chunk :=
  { object := "chat.completion.chunk"
    model := OLLAMA_MODEL
    choices := [{ index := 0
                  delta := { content := none }
                  finish_reason := some "stop" }] }

/-- The chunk sequence produced by `event_stream` for a given answer text,
with the SSE `data:` framing and the final `data: [DONE]` sentinel stripped:
one chunk per word of `answer_text.split()`, then the terminal chunk. -/
def stream_chunks (answer_text : String) : List Chunk :=
  (pySplit answer_text).map word_chunk ++ [stop_chunk]

/-- The `delta.content` field of a chunk (of its single choice). -/
def chunk_content (c : Chunk) : Option String :=
  (c.choices.headD ⟨0, ⟨none⟩, none⟩).delta.content

/-- Concatenation of a list of strings in order. -/
def concatAll : List String → String
  | [] => ""
  | s :: t => s ++ concatAll t

/-- The concatenation of the streamed `delta.content` fields in emission
order; chunks without a content field (the terminal chunk) contribute
nothing. -/
def streamConcat (answer_text : String) : String :=
  concatAll ((stream_chunks answer_text).filterMap chunk_content)

/-- The `message.content` of a buffered response. -/
def messageContent (r : ChatResponse) : String :=
  ((r.choices.headD ⟨0, ⟨"", ""⟩, none⟩).message.content)

/-- The outcome of a successful `POST /v1/chat/completions`. -/
inductive ChatOutcome where
  | buffered (r : ChatResponse)
  | streamed (chunks : List Chunk)
deriving DecidableEq, Repr

/-- The `chat` endpoint.  `agent` abstracts the
`run_in_executor(None, lambda: run_agent(user_prompt))` call; `id` abstracts
the generated uuid.  `HTTPException(400, detail)` is the `Except.error`
case. -/
def chat (agent : String → String) (id : String) (messages : List Msg)
    (stream : Bool) : Except (Nat × String) ChatOutcome :=
  if messages.isEmpty then
    .error (400, "Missing \x27messages\x27 array")
  else
    let user_prompt :=
      ((messages.reverse.find? (fun m => m.role == "user")).map (fun m => m.content)).getD ""
    if user_prompt == "" then
      .error (400, "No user message")
    else
      let answer_text := agent user_prompt
      if stream then
        .ok (.streamed (stream_chunks answer_text))
      else
        .ok (.buffered (wrap_openai id answer_text))

/-- Mutation keywords of the claimed SQL guard (spec section 4.2).  The
source contains no corresponding check; this definition exists only to
state that claim. -/
def mutation_keywords : List String :=
  ["DROP", "DELETE", "UPDATE", "INSERT", "ALTER", "CREATE"]

/-- Case-insensitive substring test for a mutation keyword, as the claimed
guard describes it. -/
def containsMutationKeyword (sql : String) : Bool :=
  mutation_keywords.any (fun k => containsSub (lowerStr sql) (lowerStr k))

/-- Modelled from the spec wording of section 4.3: the ordered category
list of the intent classifier, for comparison with `classify`. -/
def orderedCategories : List (Intent × List String) :=
  [ (.Products, products_keywords),
    (.Orders, orders_keywords),
    (.Users, users_keywords),
    (.Analytics, analytics_keywords),
    (.Weather, ["weather"]) ]

/-- Modelled from the spec wording of section 4.3: return the first category
whose keyword set has a member occurring as a substring of the lowered
utterance, and Conversational when none matches. -/
def classifySpec (utterance : String) : Intent :=
  ((orderedCategories.find?
      (fun c => c.2.any (fun w => containsSub (lowerStr utterance) w))).map
    (fun c => c.1)).getD .Conversational

/-- Modelled from the spec wording of section 4.5: the union of the four
table-handler keyword sets of section 4.3, which the spec claims is the
data-query gate of the dispatcher. -/
def unionKeywords : List String :=
  products_keywords ++ orders_keywords ++ users_keywords ++ analytics_keywords

/-- The thirteen canned SQL statements reachable from `simple_query_handler`
through the fixed tool descriptions it passes. -/
def fixedSqls : List String :=
  [ productsLowStockSql, productsCategorySql, productsAllSql,
    ordersRevenueSql, ordersPendingSql, ordersRecentSql, ordersAllSql,
    usersActiveSql, usersCountSql, usersRecentSql, usersAllSql,
    comprehensiveSql, analyticsAllSql ]

/-- An empty process environment: every variable takes its default. -/
def env0 : Env := fun _ => none

/-- A database stub whose every query succeeds with the rendering `"T"`. -/
def dbOk : DB := fun _ _ => Except.ok "T"

/-- A database stub whose every query raises `"ORA-12345"`. -/
def dbFail : DB := fun _ _ => Except.error "ORA-12345"

/-- A database stub that records the statement it was asked to run inside
its successful result, making execution observable. -/
def dbRuns : DB := fun _ sql => Except.ok ("ran: " ++ sql)

/-- A database stub that succeeds exactly on the thirteen canned statements
of `fixedSqls` and raises on everything else. -/
def dbFixed : DB := fun _ sql =>
  if sql ∈ fixedSqls then Except.ok "T" else Except.error "X"

/-- The HTTP status of a `chat` outcome: the code of the raised
`HTTPException`, or `none` for a 200 response. -/
def httpStatus : Except (Nat × String) ChatOutcome → Option Nat
  | .error (code, _) => some code
  | .ok _ => none

lemma anyKw_of_mem {kws : List String} {k pl : String} (hk : k ∈ kws)
    (hc : containsSub pl k = true) : anyKw kws pl = true :=
  List.any_eq_true.mpr ⟨k, hk, hc⟩

/-- C1: the claim says `execute_query` rejects statements containing a
data- or schema-mutation keyword and does not run them.  The source has no
such guard: this closed instance runs `DROP TABLE users` and the result is
the verdict of the database on that very statement, so the statement was
executed, not rejected. -/
theorem execute_query_guard_counterexample :
    containsMutationKeyword "DROP TABLE users" = true ∧
    execute_query env0 dbRuns "DROP TABLE users" "users" =
      Except.ok ("ran: DROP TABLE users") :=
  ⟨by decide, rfl⟩

/-- C1 amended: `execute_query` applies no keyword-based rejection at all.
Even when the statement contains a mutation keyword it is forwarded
unchanged to the database under the resolved connection string. -/
theorem execute_query_runs_mutation_sql :
    ∀ env db sql table_context, containsMutationKeyword sql = true →
      execute_query env db sql table_context =
        db (get_connection_string env table_context) sql :=
  fun _ _ _ _ _ => rfl

theorem execute_query_runs_mutation_sql_witness :
    containsMutationKeyword "DROP TABLE users" = true ∧
    execute_query env0 dbRuns "DROP TABLE users" "users" =
      dbRuns (get_connection_string env0 "users") "DROP TABLE users" :=
  ⟨by decide,
   execute_query_runs_mutation_sql env0 dbRuns "DROP TABLE users" "users" (by decide)⟩

/-- C4: the claim says the dispatcher gate is the union of all four
table-handler keyword sets.  The utterance `"money"` contains the Orders
keyword `money`, which is in that union, yet the dispatcher does not
delegate to the data handler: it returns the language-model reply. -/
theorem run_agent_gate_counterexample :
    anyKw unionKeywords "money" = true ∧
    run_agent env0 dbOk (some (fun _ => Except.ok "LLM-REPLY")) "money" =
      "LLM-REPLY" :=
  ⟨by decide, rfl⟩

/-- C4 amended: the gate of `run_agent` is the fixed ten-keyword list
`data_keywords`, a strict subset of the four-set union: the dispatcher
delegates to the data handler exactly when the lowered utterance contains
one of those ten keywords, and `"money"` witnesses the strictness. -/
theorem run_agent_gate_is_fixed_list :
    (∀ env db llm user_prompt, anyKw data_keywords (lowerStr user_prompt) = true →
        run_agent env db llm user_prompt = simple_query_handler env db user_prompt) ∧
    (∀ env db f user_prompt r, anyKw data_keywords (lowerStr user_prompt) = false →
        f user_prompt = Except.ok r → run_agent env db (some f) user_prompt = r) ∧
    (∀ k ∈ data_keywords, k ∈ unionKeywords) ∧
    ("money" ∈ unionKeywords ∧ "money" ∉ data_keywords) := by
  refine ⟨?_, ?_, by decide, by decide⟩
  · intro env db llm p h
    simp [run_agent, h]
  · intro env db f p r h hf
    simp [run_agent, h, hf]

theorem run_agent_gate_is_fixed_list_witness :
    run_agent env0 dbOk none "product" = simple_query_handler env0 dbOk "product" ∧
    run_agent env0 dbOk (some (fun _ => Except.ok "R")) "hello" = "R" :=
  ⟨run_agent_gate_is_fixed_list.1 env0 dbOk none "product" (by decide),
   run_agent_gate_is_fixed_list.2.1 env0 dbOk _ "hello" "R" (by decide) rfl⟩

/-- C5: the credential lookup is total and pure: a registered context name
returns its own credentials, and any other string returns the analytics
credentials.  (Totality and purity are inherent: `getCreds` is a plain
function of its arguments.) -/
theorem getCreds_total_lookup :
    (∀ env name c, (name, c) ∈ table_credentials env → getCreds env name = c) ∧
    (∀ env name, name ∉ (table_credentials env).map Prod.fst →
      getCreds env name =
        ⟨"analytics_reader",
         getenv env "ORACLE_TABLE_ANALYTICS_PASSWORD" "AnalyticsTable123"⟩) := by
  constructor
  · intro env name c h
    simp only [table_credentials, List.mem_cons, List.not_mem_nil, or_false] at h
    rcases h with h | h | h | h <;>
      (rw [Prod.ext_iff] at h; obtain ⟨h1, h2⟩ := h; subst h1; subst h2; rfl)
  · intro env name h
    simp only [table_credentials, List.map, List.mem_cons, List.not_mem_nil, or_false,
      not_or] at h
    obtain ⟨h1, h2, h3, h4⟩ := h
    have e1 : (name == "users") = false := beq_eq_false_iff_ne.mpr h1
    have e2 : (name == "orders") = false := beq_eq_false_iff_ne.mpr h2
    have e3 : (name == "products") = false := beq_eq_false_iff_ne.mpr h3
    have e4 : (name == "analytics") = false := beq_eq_false_iff_ne.mpr h4
    simp [getCreds, table_credentials, List.lookup, e1, e2, e3, e4]

theorem getCreds_total_lookup_witness :
    getCreds env0 "orders" = ⟨"orders_reader", "OrdersTable123"⟩ ∧
    getCreds env0 "no-such-context" = ⟨"analytics_reader", "AnalyticsTable123"⟩ :=
  ⟨getCreds_total_lookup.1 env0 "orders" ⟨"orders_reader", "OrdersTable123"⟩ (by decide),
   getCreds_total_lookup.2 env0 "no-such-context" (by decide)⟩

/-- C2: the intent classification of `simple_query_handler` equals the
first-match-wins classification over the ordered category list of the spec,
and an utterance containing both `product` and `revenue` classifies as
Products. -/
theorem classify_first_match :
    (∀ utterance, classify utterance = classifySpec utterance) ∧
    containsSub (lowerStr "what product revenue") "product" = true ∧
    containsSub (lowerStr "what product revenue") "revenue" = true ∧
    classify "what product revenue" = .Products := by
  refine ⟨?_, by decide, by decide, by decide⟩
  intro p
  unfold classify classifySpec orderedCategories anyKw
  simp only [List.find?]
  cases h1 : products_keywords.any (fun w => containsSub (lowerStr p) w) <;>
    cases h2 : orders_keywords.any (fun w => containsSub (lowerStr p) w) <;>
      cases h3 : users_keywords.any (fun w => containsSub (lowerStr p) w) <;>
        cases h4 : analytics_keywords.any (fun w => containsSub (lowerStr p) w) <;>
          cases h5 : containsSub (lowerStr p) "weather" <;>
            simp [h1, h2, h3, h4, h5]

lemma chunk_content_word (w : String) :
    chunk_content (word_chunk w) = some (w ++ " ") := rfl

lemma chunk_contents_of_stream (ws : List String) :
    (ws.map word_chunk ++ [stop_chunk]).filterMap chunk_content =
      ws.map (fun w => w ++ " ") := by
  induction ws with
  | nil => rfl
  | cons a t ih =>
    simp only [List.map_cons, List.cons_append, List.filterMap_cons, chunk_content_word]
    rw [ih]

/-- C3: the claim says the concatenated stream chunk contents equal the
buffered `message.content` byte for byte.  For answer text `"hi"` the
stream carries one chunk `"hi "` (the word plus the appended space), which
differs from the buffered content `"hi"`. -/
theorem stream_buffered_counterexample :
    streamConcat "hi" = "hi " ∧
    messageContent (wrap_openai "chatcmpl-0" "hi") = "hi" ∧
    streamConcat "hi" ≠ messageContent (wrap_openai "chatcmpl-0" "hi") :=
  ⟨by decide, by decide, by decide⟩

/-- C3 amended: the concatenation of the stream chunk contents in emission
order equals the whitespace tokens of the buffered `message.content`, each
with one space appended — not the buffered content itself (the equality
fails whenever the answer is not already in that single-spaced,
trailing-space form). -/
theorem stream_concat_tokens :
    ∀ id answer_text,
      streamConcat answer_text =
        concatAll ((pySplit (messageContent (wrap_openai id answer_text))).map
          (fun w => w ++ " ")) := by
  intro id answer
  simp only [streamConcat, stream_chunks, messageContent, wrap_openai, List.headD_cons]
  rw [chunk_contents_of_stream]

lemma classify_conversational (p : String) (h : classify p = .Conversational) :
    anyKw products_keywords (lowerStr p) = false ∧
    anyKw orders_keywords (lowerStr p) = false ∧
    anyKw users_keywords (lowerStr p) = false ∧
    anyKw analytics_keywords (lowerStr p) = false ∧
    containsSub (lowerStr p) "weather" = false := by
  simp only [classify] at h
  split_ifs at h with h1 h2 h3 h4 h5
  all_goals simp_all

lemma anyKw_false_of_subset {kws₁ kws₂ : List String} {pl : String}
    (hsub : ∀ k ∈ kws₁, k ∈ kws₂) (h : anyKw kws₂ pl = false) :
    anyKw kws₁ pl = false := by
  cases hg : anyKw kws₁ pl with
  | false => rfl
  | true =>
    obtain ⟨k, hk, hc⟩ := List.any_eq_true.mp hg
    rw [anyKw_of_mem (hsub k hk) hc] at h
    exact h

lemma gate_false_of_conversational (p : String) (h : classify p = .Conversational) :
    anyKw data_keywords (lowerStr p) = false := by
  obtain ⟨h1, h2, h3, h4, _⟩ := classify_conversational p h
  have hu : anyKw unionKeywords (lowerStr p) = false := by
    unfold anyKw at h1 h2 h3 h4 ⊢
    simp [unionKeywords, List.any_append, h1, h2, h3, h4]
  exact anyKw_false_of_subset (by decide) hu

lemma handler_conversational (env : Env) (db : DB) (p : String)
    (h : classify p = .Conversational) :
    simple_query_handler env db p = helpText := by
  obtain ⟨h1, h2, h3, h4, h5⟩ := classify_conversational p h
  simp [simple_query_handler, h1, h2, h3, h4, h5]

/-- C6: when the coarse gate finds no data keyword, the dispatcher returns
the language-model reply when the call succeeds, and falls back to the data
handler when the call raises or no model is configured; for an utterance
matching no keyword anywhere (Conversational), that fallback is the fixed
multi-section help message. -/
theorem run_agent_no_data_keyword :
    (∀ env db f user_prompt r, anyKw data_keywords (lowerStr user_prompt) = false →
        f user_prompt = Except.ok r → run_agent env db (some f) user_prompt = r) ∧
    (∀ env db f user_prompt e, anyKw data_keywords (lowerStr user_prompt) = false →
        f user_prompt = Except.error e →
        run_agent env db (some f) user_prompt = simple_query_handler env db user_prompt) ∧
    (∀ env db user_prompt, anyKw data_keywords (lowerStr user_prompt) = false →
        run_agent env db none user_prompt = simple_query_handler env db user_prompt) ∧
    (∀ env db user_prompt, classify user_prompt = .Conversational →
        run_agent env db none user_prompt = helpText ∧
        (∀ f e, f user_prompt = Except.error e →
            run_agent env db (some f) user_prompt = helpText)) := by
  refine ⟨?_, ?_, ?_, ?_⟩
  · intro env db f p r h hf
    simp [run_agent, h, hf]
  · intro env db f p e h hf
    simp [run_agent, h, hf]
  · intro env db p h
    simp [run_agent, h]
  · intro env db p h
    have hg := gate_false_of_conversational p h
    have hh := handler_conversational env db p h
    constructor
    · simp [run_agent, hg, hh]
    · intro f e hf
      simp [run_agent, hg, hf, hh]

theorem run_agent_no_data_keyword_witness :
    run_agent env0 dbOk (some (fun _ => Except.ok "OK")) "hello" = "OK" ∧
    run_agent env0 dbOk (some (fun _ => Except.error "E")) "hello" =
      simple_query_handler env0 dbOk "hello" ∧
    run_agent env0 dbOk none "hello" = simple_query_handler env0 dbOk "hello" ∧
    run_agent env0 dbOk none "hello" = helpText :=
  ⟨run_agent_no_data_keyword.1 env0 dbOk _ "hello" "OK" (by decide) rfl,
   run_agent_no_data_keyword.2.1 env0 dbOk _ "hello" "E" (by decide) rfl,
   run_agent_no_data_keyword.2.2.1 env0 dbOk "hello" (by decide),
   (run_agent_no_data_keyword.2.2.2 env0 dbOk "hello" (by decide)).1⟩

/-- C7: when every database call raises, each table tool catches the error
at its own boundary and returns a text message made of its explanatory
label followed by the underlying cause (`str(e)`).  The tools are total
string-valued functions, so the error never escapes to the HTTP layer. -/
theorem handlers_surface_db_errors :
    ∀ env db query_description e, (∀ cs sql, db cs sql = Except.error e) →
      query_users_table env db query_description = "Error querying users table: " ++ e ∧
      query_orders_table env db query_description = "Error querying orders table: " ++ e ∧
      query_products_table env db query_description = "Error querying products table: " ++ e ∧
      query_analytics_dashboard env db query_description = "Error querying analytics: " ++ e := by
  intro env db d e h
  refine ⟨?_, ?_, ?_, ?_⟩
  all_goals
    simp [query_users_table, query_orders_table, query_products_table,
      query_analytics_dashboard, execute_query, h]

theorem handlers_surface_db_errors_witness :
    query_users_table env0 dbFail "active users" =
      "Error querying users table: ORA-12345" ∧
    query_orders_table env0 dbFail "active users" =
      "Error querying orders table: ORA-12345" ∧
    query_products_table env0 dbFail "active users" =
      "Error querying products table: ORA-12345" ∧
    query_analytics_dashboard env0 dbFail "active users" =
      "Error querying analytics: ORA-12345" :=
  handlers_surface_db_errors env0 dbFail "active users" "ORA-12345" (fun _ _ => rfl)

/-- C8: a request whose messages array is empty or contains no entry with
role `user` is answered with HTTP 400, and the outcome is independent of
the agent (and of the generated identifier): no classification, handler or
language-model work can influence it. -/
theorem chat_rejects_bad_messages :
    ∀ (agent agent' : String → String) id id' messages stream,
      (messages = [] ∨ ∀ m ∈ messages, m.role ≠ "user") →
      httpStatus (chat agent id messages stream) = some 400 ∧
      chat agent id messages stream = chat agent' id' messages stream := by
  intro agent agent' id id' messages stream h
  rcases h with rfl | h
  · exact ⟨rfl, rfl⟩
  · have hfind : messages.reverse.find? (fun m => m.role == "user") = none := by
      rw [List.find?_eq_none]
      intro m hm
      simp [h m (List.mem_reverse.mp hm)]
    by_cases hmt : messages.isEmpty
    · constructor
      · simp [chat, hmt, httpStatus]
      · simp [chat, hmt]
    · constructor
      · simp [chat, hmt, hfind, httpStatus]
      · simp [chat, hmt, hfind]

theorem chat_rejects_bad_messages_witness :
    httpStatus (chat (fun _ => "A") "id1" [⟨"system", "s"⟩] false) = some 400 ∧
    chat (fun _ => "A") "id1" [⟨"system", "s"⟩] false =
      chat (fun _ => "B") "id2" [⟨"system", "s"⟩] false :=
  chat_rejects_bad_messages (fun _ => "A") (fun _ => "B") "id1" "id2"
    [⟨"system", "s"⟩] false (Or.inr (by decide))

/-- C9: the claim says the location is obtained by splitting the utterance
on the literal word `in`.  The source splits the lowered utterance on the
substring `in`: for `"weather in Singapore"` the last piece of the
substring split is `"gapore"` (the split also fires inside the word
`singapore`), so the reply is neither the sentence for `"singapore"` nor
the one for `"Singapore"` that a word split would give. -/
theorem weather_split_counterexample :
    simple_query_handler env0 dbOk "weather in Singapore" =
      "It\x27s always sunny in gapore." ∧
    "It\x27s always sunny in gapore." ≠ "It\x27s always sunny in singapore." ∧
    "It\x27s always sunny in gapore." ≠ "It\x27s always sunny in Singapore." :=
  ⟨by decide, by decide, by decide⟩

lemma classify_weather (p : String) (h : classify p = .Weather) :
    anyKw products_keywords (lowerStr p) = false ∧
    anyKw orders_keywords (lowerStr p) = false ∧
    anyKw users_keywords (lowerStr p) = false ∧
    anyKw analytics_keywords (lowerStr p) = false ∧
    containsSub (lowerStr p) "weather" = true := by
  simp only [classify] at h
  split_ifs at h with h1 h2 h3 h4 h5
  all_goals simp_all

/-- C9 amended: for a Weather-classified utterance the handler output is the
fixed weather template applied to the location obtained by splitting the
lowered utterance on the substring `in` (not the whole word) and trimming
the last piece, with default `your location` when `in` does not occur; the
right-hand side mentions no database, so the branch is deterministic and
never queries one. -/
theorem weather_handler_location :
    ∀ env db user_prompt, classify user_prompt = .Weather →
      simple_query_handler env db user_prompt =
        get_weather
          (if containsSub (lowerStr user_prompt) "in" then
            (let parts := pySplitSep (lowerStr user_prompt) "in"
             if parts.length > 1 then pyStrip (parts.getLastD "") else "your location")
          else "your location") := by
  intro env db p h
  obtain ⟨h1, h2, h3, h4, h5⟩ := classify_weather p h
  simp [simple_query_handler, h1, h2, h3, h4, h5]

theorem weather_handler_location_witness :
    classify "weather in Tokyo" = Intent.Weather ∧
    simple_query_handler env0 dbOk "weather in Tokyo" =
      "It\x27s always sunny in tokyo." := by
  refine ⟨by decide, ?_⟩
  rw [weather_handler_location env0 dbOk "weather in Tokyo" (by decide)]
  decide

lemma products_tool_low_stock (env : Env) (db : DB) :
    query_products_table env db "low stock products" =
      match db (get_connection_string env "products") productsLowStockSql with
      | .ok r => "Products Query Result:\n" ++ r
      | .error e => "Error querying products table: " ++ e := rfl

lemma products_tool_category (env : Env) (db : DB) :
    query_products_table env db "products by category" =
      match db (get_connection_string env "products") productsCategorySql with
      | .ok r => "Products Query Result:\n" ++ r
      | .error e => "Error querying products table: " ++ e := rfl

lemma products_tool_all (env : Env) (db : DB) :
    query_products_table env db "show all products" =
      match db (get_connection_string env "products") productsAllSql with
      | .ok r => "Products Query Result:\n" ++ r
      | .error e => "Error querying products table: " ++ e := rfl

lemma orders_tool_revenue (env : Env) (db : DB) :
    query_orders_table env db "total revenue from completed orders" =
      match db (get_connection_string env "orders") ordersRevenueSql with
      | .ok r => "Orders Query Result:\n" ++ r
      | .error e => "Error querying orders table: " ++ e := rfl

lemma orders_tool_pending (env : Env) (db : DB) :
    query_orders_table env db "pending orders" =
      match db (get_connection_string env "orders") ordersPendingSql with
      | .ok r => "Orders Query Result:\n" ++ r
      | .error e => "Error querying orders table: " ++ e := rfl

lemma orders_tool_recent (env : Env) (db : DB) :
    query_orders_table env db "recent orders" =
      match db (get_connection_string env "orders") ordersRecentSql with
      | .ok r => "Orders Query Result:\n" ++ r
      | .error e => "Error querying orders table: " ++ e := rfl

lemma orders_tool_all (env : Env) (db : DB) :
    query_orders_table env db "show all orders" =
      match db (get_connection_string env "orders") ordersAllSql with
      | .ok r => "Orders Query Result:\n" ++ r
      | .error e => "Error querying orders table: " ++ e := rfl

lemma users_tool_active (env : Env) (db : DB) :
    query_users_table env db "active users" =
      match db (get_connection_string env "users") usersActiveSql with
      | .ok r => "Users Query Result:\n" ++ r
      | .error e => "Error querying users table: " ++ e := rfl

lemma users_tool_count (env : Env) (db : DB) :
    query_users_table env db "total users" =
      match db (get_connection_string env "users") usersCountSql with
      | .ok r => "Users Query Result:\n" ++ r
      | .error e => "Error querying users table: " ++ e := rfl

lemma users_tool_recent (env : Env) (db : DB) :
    query_users_table env db "recent users" =
      match db (get_connection_string env "users") usersRecentSql with
      | .ok r => "Users Query Result:\n" ++ r
      | .error e => "Error querying users table: " ++ e := rfl

lemma users_tool_all (env : Env) (db : DB) :
    query_users_table env db "show all users" =
      match db (get_connection_string env "users") usersAllSql with
      | .ok r => "Users Query Result:\n" ++ r
      | .error e => "Error querying users table: " ++ e := rfl

lemma analytics_tool_comprehensive (env : Env) (db : DB) :
    query_analytics_dashboard env db "comprehensive business report" =
      match db (get_connection_string env "analytics") comprehensiveSql with
      | .ok r => "Analytics Query Result:\n" ++ r
      | .error e => "Error querying analytics: " ++ e := rfl

lemma analytics_tool_key_metrics (env : Env) (db : DB) :
    query_analytics_dashboard env db "key metrics" =
      match db (get_connection_string env "analytics") analyticsAllSql with
      | .ok r => "Analytics Query Result:\n" ++ r
      | .error e => "Error querying analytics: " ++ e := rfl

/-- C10: every database statement reachable from `simple_query_handler` is
one of the thirteen canned SELECT statements of `fixedSqls`: two databases
that agree on those thirteen statements make the handler agree on every
utterance.  In particular the expensive / highest-price products template
is not among them, hence unreachable from the dispatcher, because
`simple_query_handler` invokes `query_products_table` only with the three
descriptions `low stock products`, `products by category` and
`show all products`. -/
theorem pipeline_sql_fixed :
    (∀ env user_prompt db₁ db₂,
        (∀ cs sql, sql ∈ fixedSqls → db₁ cs sql = db₂ cs sql) →
        simple_query_handler env db₁ user_prompt =
          simple_query_handler env db₂ user_prompt) ∧
    productsExpensiveSql ∉ fixedSqls := by
  constructor
  · intro env p db₁ db₂ h
    have e01 := h (get_connection_string env "products") productsLowStockSql (by simp [fixedSqls])
    have e02 := h (get_connection_string env "products") productsCategorySql (by simp [fixedSqls])
    have e03 := h (get_connection_string env "products") productsAllSql (by simp [fixedSqls])
    have e04 := h (get_connection_string env "orders") ordersRevenueSql (by simp [fixedSqls])
    have e05 := h (get_connection_string env "orders") ordersPendingSql (by simp [fixedSqls])
    have e06 := h (get_connection_string env "orders") ordersRecentSql (by simp [fixedSqls])
    have e07 := h (get_connection_string env "orders") ordersAllSql (by simp [fixedSqls])
    have e08 := h (get_connection_string env "users") usersActiveSql (by simp [fixedSqls])
    have e09 := h (get_connection_string env "users") usersCountSql (by simp [fixedSqls])
    have e10 := h (get_connection_string env "users") usersRecentSql (by simp [fixedSqls])
    have e11 := h (get_connection_string env "users") usersAllSql (by simp [fixedSqls])
    have e12 := h (get_connection_string env "analytics") comprehensiveSql (by simp [fixedSqls])
    have e13 := h (get_connection_string env "analytics") analyticsAllSql (by simp [fixedSqls])
    simp only [simple_query_handler,
      products_tool_low_stock, products_tool_category, products_tool_all,
      orders_tool_revenue, orders_tool_pending, orders_tool_recent, orders_tool_all,
      users_tool_active, users_tool_count, users_tool_recent, users_tool_all,
      analytics_tool_comprehensive, analytics_tool_key_metrics,
      e01, e02, e03, e04, e05, e06, e07, e08, e09, e10, e11, e12, e13]
  · decide

theorem pipeline_sql_fixed_witness :
    simple_query_handler env0 dbOk "show me products" =
      simple_query_handler env0 dbFixed "show me products" :=
  pipeline_sql_fixed.1 env0 "show me products" dbOk dbFixed
    (fun cs sql hs => by simp [dbOk, dbFixed, hs])

end LocalLLM
